import Mathlib

/-!
Shallow embedding of `src/threadpool.py` (module `ktools.threadpool`).

The Python module implements a dynamic thread pool: a bounded FIFO task
queue (`Queue.Queue`) serviced by `_WorkerThread` objects owned by a
`ThreadPool`.  We embed the pool state and the worker dispatch logic as
pure Lean functions; threads are modelled sequentially (a worker's `run`
loop is a fold over the list of queue items it receives), machine-level
concurrency is out of scope.

Faithfulness notes, recorded here once and referred to from the
definitions:

* The file is Python 2 source (`raise etype, val, tb`, `task.next()`).
* `threadpool.py` never imports `sys`, so `sys.exc_info()` on line 245
  raises `NameError` at run time; the `finally:` clause then evaluates
  `callback(result)` with `result` unbound, raising `UnboundLocalError`.
* Line 131 `unfinished = len(tuple(tasks))` uses the undefined name
  `tasks` (the parameter is `new_tasks`), a `NameError`.
* Line 161 `raiseTypeError('N must be an int!')` is a call of the
  undefined name `raiseTypeError`, a `NameError`.
* Line 191 `_ = q.get()` uses the undefined name `q`, a `NameError`.
* In `process_task`, `_kwargs = self.kwargs` aliases the worker's dict,
  so `_kwargs.update(kwargs)` mutates the worker's stored kwargs; in the
  bare-callable branch `args` aliases `self.args`, so
  `args += type(args)(self.args)` extends the stored list with a copy of
  itself.  The embedding hand-evaluates this aliasing.
-/

namespace Threadpool

/-- Python run-time values appearing as task arguments and results. -/
inductive Val where
  | vint (n : Int)
  | vstr (s : String)
  | vnone
deriving DecidableEq

/-- Keyword-argument dictionaries, modelled as association lists in
insertion order (Python dicts have no duplicate keys). -/
abbrev Kwargs := List (String × Val)

/-- Outcome of calling a Python callable: it returns a value or raises an
exception, identified by its class name. -/
inductive CallResult where
  | ok (v : Val)
  | raised (e : String)

/-- A task's function: an arbitrary callable invoked as
`func(*args, **kwargs)` (threadpool.py line 241). -/
structure Fn where
  call : List Val → Kwargs → CallResult

/-- Result callbacks, as the worker can end up holding them:
`discard` is the `lambda x: None` default (lines 224/233), `send` is a
generator's `send` bound method (line 222), `user tag` is a

caller-supplied callback whose invocations we record as events. -/
inductive Cb where
  | discard
  | send
  | user (tag : Nat)
deriving DecidableEq

/-- The shapes a task value can have once a generator has been unwrapped
(threadpool.py lines 224-232): a bare callable, a list/tuple
`(func, args?, kwargs?, callback?)` with its function present (length
at least one), or any other value, which falls through the dispatch
without binding `func`/`args` and crashes at line 234. -/
inductive TaskVal where
  | callableV (f : Fn)
  | tupleV (f : Fn) (oargs : Option (List Val)) (okw : Option Kwargs) (ocb : Option Cb)
  | otherV (v : Val)

/-- A Python generator, modelled by the list of values it has yet to
yield.  `next`/`send` return the next element and advance; an exhausted
generator raises `StopIteration`.  Values sent in are not used by the
modelled generators. -/
abbrev Gen := List TaskVal

/-- Items travelling through the tasks queue: `None` (the termination
sentinel), a plain task value, or a generator task. -/
inductive Task where
  | sentinel
  | direct (tv : TaskVal)
  | gen (g : Gen)

/-- Observable events of a worker: a user callback invoked with a result
value, and `logger.exception` calls. -/
inductive Ev where
  | cbCall (tag : Nat) (v : Val)
  | logException (e : String)
deriving DecidableEq

/-- A `_WorkerThread`: its id, `alive` flag, whether the OS thread has
been started (`Thread.isAlive`), and the per-worker default `args` and
`kwargs` set in `__init__` (lines 211-212). -/
structure WThread where
  id : Nat
  alive : Bool
  running : Bool
  args : List Val
  kwargs : Kwargs
deriving DecidableEq

/-- Result of one `process_task` call, as seen from the worker:
the worker object afterwards (its `alive`, `args`, `kwargs` may have
changed), whether `self.stop()` was called (sentinel path), the events
emitted, an exception escaping `process_task` if any, and the state of
the task's generator afterwards when the task was a generator. -/
structure ProcResult where
  worker : WThread
  stopped : Bool
  events : List Ev
  raised : Option String
  genAfter : Option Gen

/-- Python `dict.update`: for each pair of `upd` in order, overwrite the
value at an existing key in place, else append the pair. -/
def kupdate (base upd : Kwargs) : Kwargs :=
  upd.foldl
    (fun acc kv =>
      if acc.any (fun p => p.1 == kv.1) then
        acc.map (fun p => if p.1 == kv.1 then kv else p)
      else acc ++ [kv])
    base

/-- Lines 239-248 of `process_task`: call `func(*args, **kwargs)` and run
the `finally:` callback.  On success the callback receives the result; a
`send` callback resumes the task's generator inline, discarding its next
yield, and raises `StopIteration` if the generator is exhausted.  When
`func` raises, the `except:` block logs the exception and then evaluates
`sys.exc_info()` — `sys` is not imported, so a `NameError` is raised, and
the `finally:` clause's `callback(result)` reads the unbound `result`,
so `UnboundLocalError` escapes and the callback is never invoked. -/
def runCall (w : WThread) (f : Fn) (args : List Val) (kw : Kwargs)
    (cb : Cb) (g : Option Gen) : ProcResult :=
  match f.call args kw with
  | CallResult.ok v =>
    match cb with
    | Cb.discard => ⟨w, false, [], none, g⟩
    | Cb.user tag => ⟨w, false, [Ev.cbCall tag v], none, g⟩
    | Cb.send =>
      match g with
      | some (_ :: grest) => ⟨w, false, [], none, some grest⟩
      | some [] => ⟨w, false, [], some "StopIteration", some []⟩
      | none => ⟨w, false, [], none, none⟩
  | CallResult.raised e =>
    ⟨w, false, [Ev.logException e], some "UnboundLocalError", g⟩

/-- Lines 220-248 of `process_task`, after the `None` check and generator
unwrapping: dispatch on the task value.  `genCb` is `some g'` when the
task was a generator (already advanced past its first yield), in which
case the pending callback is the generator's `send`.

Branches, hand-evaluating the Python aliasing:
* bare callable (line 224): `args` aliases `self.args`, so
  `args += type(args)(self.args)` doubles the worker's stored args list
  in place; `kwargs` aliases `self.kwargs`, so `update` with itself is a
  no-op; the callback is overwritten with `lambda x: None`, so a
  generator is never resumed on this branch;
* list/tuple (lines 225-232): call args are the task's args followed by
  the worker's defaults; `_kwargs = self.kwargs` aliases the worker's
  dict, so the task kwargs are merged into the worker's stored kwargs in
  place and the merged dict is used for the call;
* any other value: `func`, `args`, `kwargs` are never bound, and line
  234 `args += ...` raises `UnboundLocalError`. -/
def dispatchTv (w : WThread) (tv : TaskVal) (genCb : Option Gen) : ProcResult :=
  match tv with
  | TaskVal.callableV f =>
    let callArgs := w.args ++ w.args
    let w' := { w with args := callArgs }
    runCall w' f callArgs w.kwargs Cb.discard genCb
  | TaskVal.tupleV f oargs okw ocb =>
    let targs := oargs.getD []
    let tkw := okw.getD []
    let cb : Cb :=
      match ocb with
      | some c => c
      | none => match genCb with | some _ => Cb.send | none => Cb.discard
    let callKw := kupdate w.kwargs tkw
    let w' := { w with kwargs := callKw }
    runCall w' f (targs ++ w.args) callKw cb genCb
  | TaskVal.otherV _ =>
    ⟨w, false, [], some "UnboundLocalError", genCb⟩

/-- `_WorkerThread.process_task` (lines 215-248).  `None` calls
`self.stop()`, which via `pool.stop_thread` sets the worker's `alive`
flag false (the pool-side set removal is modelled in `stop_thread`
below).  A generator task is advanced with `task.next()` — an empty
generator raises `StopIteration`, which escapes — and its `send` method
becomes the pending callback.  Everything else goes to `dispatchTv`. -/
def process_task (w : WThread) (t : Task) : ProcResult :=
  match t with
  | Task.sentinel => ⟨{ w with alive := false }, true, [], none, none⟩
  | Task.direct tv => dispatchTv w tv none
  | Task.gen g =>
    match g with
    | [] => ⟨w, false, [], some "StopIteration", none⟩
    | tv :: grest => dispatchTv w tv (some grest)

/-- How a worker's `run` loop (lines 250-267) ends in the sequential
model: `polling` (queue exhausted, worker still alive and would keep
polling), `stopped` (the `while self.alive` condition became false), or
`errored e` (an exception escaped `process_task`, was caught by the
loop-level `except:`, logged as `Unhandled error`, and the loop exited;
`self.stop()` then set `alive` false). -/
inductive RunExit where
  | polling
  | stopped
  | errored (e : String)
deriving DecidableEq

/-- The body of `_WorkerThread.run` (lines 250-267) over the list of
queue items this worker receives, accumulating events.  The whole
`while` loop sits inside one `try: ... except: logger.exception(...)`,
so an exception escaping `process_task` terminates the loop (after being
logged); the trailing `self.stop()` then marks the worker not alive. -/
def runWorkerGo (w : WThread) : List Task → List Ev →
    WThread × List Task × List Ev × RunExit
  | [], evs =>
    if w.alive then (w, [], evs, RunExit.polling)
    else (w, [], evs, RunExit.stopped)
  | t :: rest, evs =>
    if w.alive then
      let r := process_task w t
      match r.raised with
      | some e =>
        ({ r.worker with alive := false }, rest,
          evs ++ r.events ++ [Ev.logException "Unhandled error"],
          RunExit.errored e)
      | none => runWorkerGo r.worker rest (evs ++ r.events)
    else (w, t :: rest, evs, RunExit.stopped)

/-- `_WorkerThread.run` on a given queue, starting with no events. -/
def runWorker (w : WThread) (q : List Task) :
    WThread × List Task × List Ev × RunExit :=
  runWorkerGo w q []

/-- The `ThreadPool` state: the set `self._threads` (as a list; ids are
kept unique by `_firstid`), the bounded `tasks_queue` (front at the
head; capacity/blocking is a liveness concern outside the sequential
model), and the `dying` flag.  `removed` is a model-level log of the
worker objects after `stop_thread` takes them out of the set — the
Python thread objects outlive the set and keep their final flags. -/
structure PoolState where
  threads : List WThread
  removed : List WThread
  queue : List Task
  dying : Bool

/-- Property `size` (line 70): `len(self._threads)`. -/
def PoolState.size (p : PoolState) : Nat := p.threads.length

/-- Property `alive` (line 57): `bool(self.size)`. -/
def PoolState.alive (p : PoolState) : Bool := p.size != 0

/-- Property `started` (lines 78-85): false for an empty pool, else
whether any thread `isAlive`.  The `if any and not all:` branch is dead
code — `any`/`all` there are the truthy builtins, so the condition is
always false — and the property returns `_any`. -/
def PoolState.started (p : PoolState) : Bool :=
  if p.size == 0 then false else p.threads.any (fun t => t.running)

/-- Property `_firstid` (lines 88-93): the smallest id in
`1..size` not already taken, else `size + 1`. -/
def _firstid (p : PoolState) : Nat :=
  let ids := p.threads.map (fun t => t.id)
  match ((List.range p.size).map (fun n => n + 1)).find?
      (fun n => !(ids.contains n)) with
  | some n => n
  | none => p.size + 1

/-- `ThreadPool._newthread` (lines 95-100): a no-op on a dying pool;
otherwise construct a `_WorkerThread` (fresh id, `alive=True`, empty
default args/kwargs), start it if the pool is started, and add it to the
set.  The optional `setup` hook is not modelled. -/
def _newthread (p : PoolState) : PoolState :=
  if p.dying then p
  else
    let nt : WThread :=
      { id := _firstid p, alive := true, running := p.started
        args := [], kwargs := [] }
    { p with threads := p.threads ++ [nt] }

/-- `ThreadPool._insert_task` (lines 102-104): unconditionally put the
item at the back of the tasks queue. -/
def _insert_task (p : PoolState) (t : Task) : PoolState :=
  { p with queue := p.queue ++ [t] }

/-- The exception `ThreadPoolDying` (line 24); the spec calls it
`PoolClosed`. -/
inductive PoolErr where
  | threadPoolDying
deriving DecidableEq

/-- `ThreadPool.insert_task` (lines 106-115): enqueue when
`self.alive and not self.dying`, else raise `ThreadPoolDying`. -/
def insert_task (p : PoolState) (t : Task) : Except PoolErr PoolState :=
  if p.alive && !p.dying then Except.ok (_insert_task p t)
  else Except.error PoolErr.threadPoolDying

/-- How `ThreadPool.insert_tasks` (lines 117-135) terminates: the
`while`'s `else:` raises `ThreadPoolDying` when the loop condition goes
false without a `break`; after a `break` (iterator exhausted) execution
reaches line 131, `unfinished = len(tuple(tasks))`, where `tasks` is an
undefined name, so `NameError` is raised.  Both record how many items
had been inserted by then. -/
inductive InsOutcome where
  | nameError (inserted : Nat)
  | threadPoolDying (inserted : Nat)
deriving DecidableEq

/-- The `while self.alive and not self.dying:` loop of `insert_tasks`:
insert items one at a time in iteration order, recounting the condition
before each `next`; `StopIteration` breaks out.  Returns the pool, the
insertion count, and whether the loop ended by `break`. -/
def insert_tasks_loop (p : PoolState) : List Task → Nat →
    PoolState × Nat × Bool
  | [], inserted =>
    if p.alive && !p.dying then (p, inserted, true) else (p, inserted, false)
  | t :: rest, inserted =>
    if p.alive && !p.dying then
      insert_tasks_loop (_insert_task p t) rest (inserted + 1)
    else (p, inserted, false)

/-- `ThreadPool.insert_tasks` (lines 117-135): run the loop, then either
the `else:` branch raises `ThreadPoolDying`, or line 131's undefined
name `tasks` raises `NameError` — the function can never return
normally. -/
def insert_tasks (p : PoolState) (ts : List Task) : InsOutcome × PoolState :=
  let r := insert_tasks_loop p ts 0
  if r.2.2 then (InsOutcome.nameError r.2.1, r.1)
  else (InsOutcome.threadPoolDying r.2.1, r.1)

/-- Argument passed to `set_thread_count`: an `int` (Python `bool`s are
`int`s) or a value of any other type. -/
inductive PyArg where
  | int (n : Int)
  | other (descr : String)

/-- Outcome of `set_thread_count` and `stop`: normal return or an
exception escaping, identified by its class name. -/
inductive STCResult where
  | ok
  | raised (e : String)
deriving DecidableEq

/-- `ThreadPool.set_thread_count` (lines 137-161), under the resize lock
(serialization is implicit in the sequential model).  Negative `n` is
clamped to `0` (line 146, `# get rid of negative numbers`); `n == 0`
enqueues one `None` sentinel per current worker; `n == size` is a no-op;
growing runs `_newthread` exactly `n - size` times (the `range` is
computed once); shrinking enqueues `size - n` sentinels.  A non-`int`
argument reaches line 161, `raiseTypeError('N must be an int!')`, a call
of an undefined name, so `NameError` is raised. -/
def set_thread_count (p : PoolState) (arg : PyArg) : STCResult × PoolState :=
  match arg with
  | PyArg.int n0 =>
    let n : Int := if n0 < 0 then 0 else n0
    if n = 0 then
      (STCResult.ok,
        (List.range p.size).foldl (fun q _ => _insert_task q Task.sentinel) p)
    else if n = (p.size : Int) then (STCResult.ok, p)
    else if (p.size : Int) < n then
      (STCResult.ok,
        (List.range (n - (p.size : Int)).toNat).foldl (fun q _ => _newthread q) p)
    else
      (STCResult.ok,
        (List.range ((p.size : Int) - n).toNat).foldl
          (fun q _ => _insert_task q Task.sentinel) p)
  | PyArg.other _ => (STCResult.raised "NameError", p)

/-- `ThreadPool.stop_thread` (lines 194-198), identified by the thread's
id (the Python method receives the thread object): set the thread's
`alive` flag false and discard it from the set, ignoring `KeyError` when
it is already gone.  The stopped object is appended to the model's
`removed` log; the optional `cleanup` hook is not modelled. -/
def stop_thread (p : PoolState) (tid : Nat) : PoolState :=
  match p.threads.find? (fun t => t.id == tid) with
  | some t =>
    { p with
        threads := p.threads.eraseP (fun x => x.id == tid)
        removed := p.removed ++ [{ t with alive := false }] }
  | none => p

/-- `ThreadPool.stop` (lines 173-192).  Early return when already dying
or not started.  With `finish` the pool resizes to zero (one sentinel
per worker); `wait` blocks on `tasks_queue.join()` and `not wait`
daemonizes the threads, neither changing the modelled state.  Without
`finish`, `thread.stop()` runs on a copy of the set — each call reaches
`stop_thread` — and then the drain loop's first `_ = q.get()` (line 191)
raises `NameError` (`q` is undefined) whenever the queue is non-empty,
leaving every queued item in place. -/
def ThreadPool.stop (p : PoolState) (_wait finish : Bool) :
    STCResult × PoolState :=
  if p.dying || !p.started then (STCResult.ok, p)
  else
    let p1 := { p with dying := true }
    if finish then
      (STCResult.ok, (set_thread_count p1 (PyArg.int 0)).2)
    else
      let p2 := p1.threads.foldl (fun q th => stop_thread q th.id) p1
      if p2.queue.isEmpty then (STCResult.ok, p2)
      else (STCResult.raised "NameError", p2)

/-- One sentinel consumption step, iterated: while the queue's front is
a `None` sentinel and some worker remains, that worker's `run` loop
receives it, `process_task` calls `self.stop()`, and `pool.stop_thread`
removes the worker from the set.  Fuel-driven; `processSentinels` below
supplies enough fuel for the whole queue. -/
def drainFuel : Nat → PoolState → PoolState
  | 0, p => p
  | fuel + 1, p =>
    match p.queue, p.threads with
    | Task.sentinel :: rest, th :: _ =>
      drainFuel fuel (stop_thread { p with queue := rest } th.id)
    | _, _ => p

/-- The pool after the workers have processed all pending sentinels at
the front of the queue. -/
def processSentinels (p : PoolState) : PoolState :=
  drainFuel p.queue.length p

/-! Concrete callables, workers and pools used as test inputs below. -/

/-- A callable that returns the integer 4. -/
def fnOkC : Fn := ⟨fun _ _ => CallResult.ok (Val.vint 4)⟩

/-- A callable that returns the integer 5. -/
def fnOk2C : Fn := ⟨fun _ _ => CallResult.ok (Val.vint 5)⟩

/-- A callable that raises `ValueError`. -/
def fnRaiseC : Fn := ⟨fun _ _ => CallResult.raised "ValueError"⟩

/-- A started worker with id 1 and empty defaults. -/
def w0C : WThread := ⟨1, true, true, [], []⟩

/-- A started worker with non-empty default args and kwargs. -/
def w9C : WThread := ⟨2, true, true, [Val.vint 9], [("k", Val.vint 0)]⟩

/-- An envelope task whose function raises, with result callback 7. -/
def badTC : Task :=
  Task.direct (TaskVal.tupleV fnRaiseC (some []) (some []) (some (Cb.user 7)))

/-- An envelope task whose function succeeds, with result callback 8. -/
def goodTC : Task :=
  Task.direct (TaskVal.tupleV fnOkC (some []) (some []) (some (Cb.user 8)))

/-- A task that is neither callable nor a list/tuple nor a generator:
its dispatch crashes at line 234 of the source. -/
def bad5C : Task := Task.direct (TaskVal.otherV (Val.vint 42))

/-- First step of a resumable task: an envelope with no own callback. -/
def t1C : TaskVal := TaskVal.tupleV fnOkC (some []) (some []) none

/-- Second step of a resumable task, with result callback 9. -/
def t2C : TaskVal := TaskVal.tupleV fnOk2C (some []) (some []) (some (Cb.user 9))

/-- A live one-worker pool with an empty queue. -/
def pLiveC : PoolState := ⟨[w0C], [], [], false⟩

/-- A pool with no workers that is not dying. -/
def pEmptyC : PoolState := ⟨[], [], [], false⟩

/-- A started one-worker pool with one pending envelope task. -/
def p4C : PoolState := ⟨[w0C], [], [goodTC], false⟩

/-- A live three-worker pool with an empty queue. -/
def p3C : PoolState :=
  ⟨[w0C, ⟨2, true, true, [], []⟩, ⟨3, true, true, [], []⟩], [], [], false⟩

/-- A dying one-worker pool. -/
def pDyingC : PoolState := ⟨[w0C], [], [], true⟩

/-! Helper lemmas shared by the claim theorems. -/

/-- Folding `_insert_task · Task.sentinel` `k` times appends exactly `k`
sentinels to the queue and changes nothing else. -/
theorem foldl_insert_sentinel (k : Nat) (p : PoolState) :
    (List.range k).foldl (fun q _ => _insert_task q Task.sentinel) p =
      { p with queue := p.queue ++ List.replicate k Task.sentinel } := by
  induction k with
  | zero => simp
  | succ k ih =>
    rw [List.range_succ, List.foldl_append, ih]
    simp [_insert_task, List.replicate_succ']

/-- Folding `_newthread` `k` times over a non-dying pool adds exactly
`k` workers and leaves the queue, the `dying` flag and the removal log
unchanged. -/
theorem foldl_newthread_spec (k : Nat) (p : PoolState) (hd : p.dying = false) :
    ((List.range k).foldl (fun q _ => _newthread q) p).threads.length
        = p.threads.length + k ∧
    ((List.range k).foldl (fun q _ => _newthread q) p).queue = p.queue ∧
    ((List.range k).foldl (fun q _ => _newthread q) p).dying = false ∧
    ((List.range k).foldl (fun q _ => _newthread q) p).removed = p.removed := by
  induction k with
  | zero => simp [hd]
  | succ k ih =>
    obtain ⟨h1, h2, h3, h4⟩ := ih
    rw [List.range_succ, List.foldl_append]
    simp only [List.foldl_cons, List.foldl_nil]
    have hnt : ∀ X : PoolState, X.dying = false →
        _newthread X = { X with threads := X.threads ++
          [{ id := _firstid X, alive := true, running := X.started,
             args := [], kwargs := [] }] } := by
      intro X hX
      unfold _newthread
      rw [hX]
      simp
    rw [hnt _ h3]
    refine ⟨?_, ?_, ?_, ?_⟩
    · simp [h1]; omega
    · simpa using h2
    · simpa using h3
    · simpa using h4

/-- Folding `_newthread` over a dying pool is the identity. -/
theorem foldl_newthread_dying (k : Nat) (p : PoolState) (hd : p.dying = true) :
    (List.range k).foldl (fun q _ => _newthread q) p = p := by
  induction k with
  | zero => rfl
  | succ k ih =>
    rw [List.range_succ, List.foldl_append]
    simp only [List.foldl_cons, List.foldl_nil]
    rw [ih]
    unfold _newthread
    rw [hd]
    simp

/-- A `drainFuel` run on an empty queue does nothing. -/
theorem drainFuel_done (fuel : Nat) (p : PoolState) (h : p.queue = []) :
    drainFuel fuel p = p := by
  cases fuel with
  | zero => rfl
  | succ f =>
    unfold drainFuel
    rw [h]

/-- Removing the head worker through `stop_thread` by its own id. -/
theorem stop_thread_cons (p : PoolState) (th : WThread) (ts : List WThread)
    (h : p.threads = th :: ts) :
    stop_thread p th.id =
      ⟨ts, p.removed ++ [{ th with alive := false }], p.queue, p.dying⟩ := by
  unfold stop_thread
  rw [h]
  simp [List.find?_cons, List.eraseP_cons]

/-- Draining a queue of exactly `k` sentinels with at least `k` workers
removes exactly `k` workers (one per sentinel, each logged in the
removal log) and empties the queue. -/
theorem drainFuel_replicate : ∀ (k fuel : Nat) (p : PoolState),
    p.queue = List.replicate k Task.sentinel → k ≤ fuel →
    k ≤ p.threads.length →
    (drainFuel fuel p).threads.length = p.threads.length - k ∧
    (drainFuel fuel p).queue = [] ∧
    (drainFuel fuel p).removed.length = p.removed.length + k := by
  intro k
  induction k with
  | zero =>
    intro fuel p hq _ _
    rw [drainFuel_done fuel p (by simpa using hq)]
    simpa using hq
  | succ k ih =>
    intro fuel p hq hf ht
    obtain ⟨f, rfl⟩ : ∃ f, fuel = f + 1 := ⟨fuel - 1, by omega⟩
    obtain ⟨th, ts, hth⟩ : ∃ th ts, p.threads = th :: ts := by
      cases hh : p.threads with
      | nil => rw [hh] at ht; simp at ht
      | cons a l => exact ⟨a, l, rfl⟩
    rw [List.replicate_succ] at hq
    have hstep : drainFuel (f + 1) p =
        drainFuel f (stop_thread { p with queue := List.replicate k Task.sentinel } th.id) := by
      simp only [drainFuel]
      rw [hq, hth]
    have hrm : stop_thread { p with queue := List.replicate k Task.sentinel } th.id =
        (⟨ts, p.removed ++ [{ th with alive := false }],
          List.replicate k Task.sentinel, p.dying⟩ : PoolState) := by
      rw [stop_thread_cons _ th ts (by simpa using hth)]
    rw [hstep, hrm]
    have hrec := ih f
      (⟨ts, p.removed ++ [{ th with alive := false }],
        List.replicate k Task.sentinel, p.dying⟩ : PoolState)
      rfl (by omega) (by rw [hth] at ht; simpa using Nat.lt_succ_iff.mp ht)
    obtain ⟨r1, r2, r3⟩ := hrec
    have hlen : p.threads.length = ts.length + 1 := by rw [hth]; rfl
    refine ⟨?_, r2, ?_⟩
    · have r1' : (drainFuel f (⟨ts, p.removed ++ [{ th with alive := false }],
          List.replicate k Task.sentinel, p.dying⟩ : PoolState)).threads.length
          = ts.length - k := r1
      rw [r1', hlen]
      omega
    · have r3' : (drainFuel f (⟨ts, p.removed ++ [{ th with alive := false }],
          List.replicate k Task.sentinel, p.dying⟩ : PoolState)).removed.length
          = (p.removed ++ [{ th with alive := false }]).length + k := r3
      rw [r3']
      simp
      omega

/-- The worker object coming out of `runCall` is the one passed in: the
call/callback phase touches no worker field. -/
theorem runCall_worker (w : WThread) (f : Fn) (args : List Val) (kw : Kwargs)
    (cb : Cb) (g : Option Gen) : (runCall w f args kw cb g).worker = w := by
  unfold runCall
  cases hc : f.call args kw with
  | ok v =>
    cases cb with
    | discard => rfl
    | user tag => rfl
    | send =>
      cases g with
      | none => rfl
      | some l =>
        cases l with
        | nil => rfl
        | cons hd tl => rfl
  | raised e => rfl

/-- A worker's run loop only consumes queue items, never adds any: the
unprocessed remainder is a suffix of the queue it was given. -/
theorem runWorkerGo_queue_suffix : ∀ (q : List Task) (w : WThread) (evs : List Ev),
    (runWorkerGo w q evs).2.1 <:+ q := by
  intro q
  induction q with
  | nil =>
    intro w evs
    simp only [runWorkerGo]
    by_cases h : w.alive = true
    · rw [if_pos h]
    · rw [if_neg h]
  | cons t rest ih =>
    intro w evs
    simp only [runWorkerGo]
    by_cases h : w.alive = true
    · rw [if_pos h]
      cases hr : (process_task w t).raised with
      | some e => simp [hr]
      | none => simp [hr]; exact (ih _ _).trans (List.suffix_cons t rest)
    · rw [if_neg h]

/-! Claim theorems. -/

/-- C2 (code bug): the spec says a raising task function has its
exception captured and passed to the task's callback, with the worker
staying alive for later tasks.  In the source, `threadpool.py` never
imports `sys`, so line 245 `result = sys.exc_info()` raises `NameError`
inside the `except:` block and the `finally:` clause's
`callback(result)` raises `UnboundLocalError`: evaluating the code at
the failing input, the task's exception is only logged, callback 7 is
never invoked, the escaping error ends the worker loop, the worker's
`alive` flag goes false, and the follow-up task is left unprocessed. -/
theorem failing_task_kills_worker :
    runWorker w0C [badTC, goodTC] =
      (⟨1, false, true, [], []⟩, [goodTC],
        [Ev.logException "ValueError", Ev.logException "Unhandled error"],
        RunExit.errored "UnboundLocalError") := rfl

/-- C3 counterexample: `insert_task` raises `ThreadPoolDying` on a pool
whose `dying` flag is false (a pool with zero workers is not `alive`),
refuting the claim that it raises if and only if `dying` is true. -/
theorem insert_task_not_dying_raises_cex :
    pEmptyC.dying = false ∧
    insert_task pEmptyC goodTC = Except.error PoolErr.threadPoolDying :=
  ⟨rfl, rfl⟩

/-- C3 (amended): `insert_task` raises `ThreadPoolDying` iff the pool is
dying or its worker set is empty; on a live, non-dying pool it appends
the task to the queue and raises nothing. -/
theorem insert_task_raises_iff (p : PoolState) (t : Task) :
    (insert_task p t = Except.error PoolErr.threadPoolDying ↔
      (p.dying = true ∨ p.size = 0)) ∧
    (p.dying = false → 0 < p.size →
      insert_task p t = Except.ok { p with queue := p.queue ++ [t] }) := by
  by_cases hs : p.size = 0 <;> cases hd : p.dying <;>
    simp [insert_task, PoolState.alive, _insert_task, hs, hd]

/-- C3 witness: the amended claim evaluated on a live one-worker pool
and on a dying pool. -/
theorem insert_task_raises_iff_witness :
    insert_task pLiveC goodTC = Except.ok { pLiveC with queue := [goodTC] } ∧
    insert_task pDyingC goodTC = Except.error PoolErr.threadPoolDying := by
  constructor
  · exact (insert_task_raises_iff pLiveC goodTC).2 rfl (by decide)
  · exact (insert_task_raises_iff pDyingC goodTC).1.mpr (Or.inl rfl)

/-- C4 (code bug): the spec says `stop(finish=False)` discards every
pending queued item and returns.  In the source, the drain loop on line
191 reads the undefined name `q`, so with one pending task the call
raises `NameError` and the task is still in the queue (the workers were
stopped first: the set empties and the stopped worker's `alive` flag is
false).  With an empty queue the loop body never runs and `stop`
returns normally. -/
theorem stop_nofinish_raises_nameerror :
    ThreadPool.stop p4C true false =
      (STCResult.raised "NameError",
        ⟨[], [⟨1, false, true, [], []⟩], [goodTC], true⟩) ∧
    ThreadPool.stop pLiveC true false =
      (STCResult.ok, ⟨[], [⟨1, false, true, [], []⟩], [], true⟩) :=
  ⟨rfl, rfl⟩

/-- C5 counterexample: a task that is neither callable nor a tuple makes
the dispatch logic raise (`args` unbound at line 234); the worker's loop
does not continue — the run ends `errored`, the worker's `alive` flag is
false, the subsequent task is left unprocessed, and the only event is
the loop-level `Unhandled error` log. -/
theorem dispatch_fault_terminates_worker_cex :
    (runWorker w0C [bad5C, goodTC]).2.2.2 = RunExit.errored "UnboundLocalError" ∧
    (runWorker w0C [bad5C, goodTC]).1.alive = false ∧
    (runWorker w0C [bad5C, goodTC]).2.1 = [goodTC] ∧
    (runWorker w0C [bad5C, goodTC]).2.2.1 = [Ev.logException "Unhandled error"] :=
  ⟨rfl, rfl, rfl, rfl⟩

/-- C5 (amended): an exception escaping `process_task` is caught by the
loop-level handler and logged (`Unhandled error`), but the polling loop
terminates rather than continuing: the remaining queue items are left,
and the worker ends not alive (its trailing `self.stop()` removes it
from the worker set). -/
theorem dispatch_fault_logged_loop_exits (w : WThread) (t : Task)
    (rest : List Task) (e : String) (ha : w.alive = true)
    (he : (process_task w t).raised = some e) :
    runWorker w (t :: rest) =
      ({ (process_task w t).worker with alive := false }, rest,
        (process_task w t).events ++ [Ev.logException "Unhandled error"],
        RunExit.errored e) := by
  unfold runWorker
  simp only [runWorkerGo]
  rw [if_pos ha]
  simp [he]

/-- C5 witness: the amended claim evaluated at a concrete dispatch
fault. -/
theorem dispatch_fault_logged_loop_exits_witness :
    runWorker w0C [bad5C] =
      ({ (process_task w0C bad5C).worker with alive := false }, [],
        (process_task w0C bad5C).events ++ [Ev.logException "Unhandled error"],
        RunExit.errored "UnboundLocalError") :=
  dispatch_fault_logged_loop_exits w0C bad5C [] "UnboundLocalError" rfl rfl

/-- C6 (code bug): the spec says `insert_tasks` returns the number of
inserted items and that `insert_tasks([])` is a no-op that does not
fail.  In the source, every run that exhausts its iterator reaches line
131, `unfinished = len(tuple(tasks))`, where `tasks` is an undefined
name (the parameter is `new_tasks`), so the call raises `NameError` —
already for the empty sequence on a live, non-dying pool, and likewise
after successfully enqueueing a non-empty sequence in order. -/
theorem insert_tasks_always_nameerror :
    insert_tasks pLiveC [] = (InsOutcome.nameError 0, pLiveC) ∧
    insert_tasks pLiveC [goodTC] =
      (InsOutcome.nameError 1, { pLiveC with queue := [goodTC] }) :=
  ⟨rfl, rfl⟩

/-- C7 counterexample: `set_thread_count(-1)` on a live one-worker pool
raises nothing and enqueues a sentinel, refuting the claim that every
negative argument raises an error and leaves the queue unchanged. -/
theorem set_thread_count_negative_cex :
    set_thread_count pLiveC (PyArg.int (-1)) =
      (STCResult.ok, { pLiveC with queue := [Task.sentinel] }) := rfl

/-- C7 (amended): a negative integer argument is clamped to zero (line
146) — `set_thread_count(n)` for `n < 0` behaves exactly like
`set_thread_count(0)`: no error, one sentinel enqueued per current
worker, worker set untouched.  A non-integer argument raises — but a
`NameError` (line 161 calls the undefined name `raiseTypeError`), not
the advertised argument error — leaving the pool unchanged. -/
theorem set_thread_count_clamps_negative (p : PoolState) (n : Int)
    (hn : n < 0) (s : String) :
    set_thread_count p (PyArg.int n) = set_thread_count p (PyArg.int 0) ∧
    (set_thread_count p (PyArg.int n)).1 = STCResult.ok ∧
    (set_thread_count p (PyArg.int n)).2.queue =
      p.queue ++ List.replicate p.size Task.sentinel ∧
    (set_thread_count p (PyArg.int n)).2.threads = p.threads ∧
    set_thread_count p (PyArg.other s) = (STCResult.raised "NameError", p) := by
  have h1 : set_thread_count p (PyArg.int n) =
      (STCResult.ok, { p with queue := p.queue ++ List.replicate p.size Task.sentinel }) := by
    simp only [set_thread_count]
    rw [if_pos hn, if_pos rfl, foldl_insert_sentinel]
  have h2 : set_thread_count p (PyArg.int 0) =
      (STCResult.ok, { p with queue := p.queue ++ List.replicate p.size Task.sentinel }) := by
    simp only [set_thread_count]
    rw [if_neg (by omega : ¬ (0 : Int) < 0), if_pos rfl, foldl_insert_sentinel]
  refine ⟨by rw [h1, h2], by rw [h1], by rw [h1], by rw [h1], rfl⟩

/-- C7 witness: the amended claim evaluated at `-1` on a live
one-worker pool. -/
theorem set_thread_count_clamps_negative_witness :
    set_thread_count pLiveC (PyArg.int (-1)) = set_thread_count pLiveC (PyArg.int 0) ∧
    (set_thread_count pLiveC (PyArg.int (-1))).1 = STCResult.ok ∧
    (set_thread_count pLiveC (PyArg.int (-1))).2.queue = [Task.sentinel] ∧
    (set_thread_count pLiveC (PyArg.int (-1))).2.threads = [w0C] ∧
    set_thread_count pLiveC (PyArg.other "x") = (STCResult.raised "NameError", pLiveC) := by
  have h := set_thread_count_clamps_negative pLiveC (-1) (by decide) "x"
  exact ⟨h.1, h.2.1, h.2.2.1, h.2.2.2.1, h.2.2.2.2⟩

/-- C8 counterexample: a generator task with a pending second step is
never re-enqueued — after the worker processes it, the queue is empty,
no event from the second step's callback (9) was emitted, and the
worker merely idles; no later poll cycle can resume the task.  This
refutes the claim that the updated continuation is put back in the task
queue. -/
theorem generator_never_reenqueued_cex :
    runWorker w0C [Task.gen [t1C, t2C]] = (w0C, [], [], RunExit.polling) := rfl

/-- C8 (amended): for a generator task the worker takes the first yield
via `next()` and dispatches it; the generator's `send` becomes the
result callback, so after the call the generator is resumed inline on
the same worker: its next yield is discarded (`genAfter` advances past
it) and an exhausted generator raises `StopIteration`, which escapes
`process_task`.  Nothing is ever re-enqueued — the worker's remaining
queue is always a suffix of the queue it was given. -/
theorem generator_resumed_inline (w : WThread) (f : Fn) (a : List Val)
    (ks : Kwargs) (grest : Gen) (q : List Task) (v : Val)
    (hok : f.call (a ++ w.args) (kupdate w.kwargs ks) = CallResult.ok v) :
    (process_task w (Task.gen (TaskVal.tupleV f (some a) (some ks) none :: grest))).events = [] ∧
    (process_task w (Task.gen (TaskVal.tupleV f (some a) (some ks) none :: grest))).genAfter
      = some grest.tail ∧
    ((process_task w (Task.gen (TaskVal.tupleV f (some a) (some ks) none :: grest))).raised
      = if grest.isEmpty then some "StopIteration" else none) ∧
    ((runWorkerGo w (Task.gen (TaskVal.tupleV f (some a) (some ks) none :: grest) :: q) []).2.1)
      <:+ (Task.gen (TaskVal.tupleV f (some a) (some ks) none :: grest) :: q) := by
  refine ⟨?_, ?_, ?_, runWorkerGo_queue_suffix _ _ _⟩ <;>
    cases grest <;> simp [process_task, dispatchTv, runCall, hok]

/-- C8 witness: the amended claim evaluated at a concrete two-step
resumable task. -/
theorem generator_resumed_inline_witness :
    (process_task w0C (Task.gen [t1C, t2C])).events = [] ∧
    (process_task w0C (Task.gen [t1C, t2C])).genAfter = some [] ∧
    (process_task w0C (Task.gen [t1C, t2C])).raised = none ∧
    (runWorkerGo w0C [Task.gen [t1C, t2C], goodTC] []).2.1
      <:+ [Task.gen [t1C, t2C], goodTC] := by
  have h := generator_resumed_inline w0C fnOkC [] [] [t2C] [goodTC] (Val.vint 4) rfl
  exact ⟨h.1, h.2.1, h.2.2.1, h.2.2.2⟩

/-- C9 counterexample: processing an envelope task with kwargs
`{"a": 1}` changes the worker's stored default kwargs, and processing a
bare callable changes the worker's stored default args — the defaults
are not fixed at creation. -/
theorem worker_defaults_mutated_cex :
    (process_task w9C (Task.direct (TaskVal.tupleV fnOkC (some [])
        (some [("a", Val.vint 1)]) none))).worker.kwargs ≠ w9C.kwargs ∧
    (process_task w9C (Task.direct (TaskVal.callableV fnOkC))).worker.args ≠ w9C.args := by
  refine ⟨?_, ?_⟩ <;> decide

/-- C9 (amended): the worker's defaults are not invariant under task
processing.  An envelope task's kwargs are merged into the worker's
stored kwargs in place (`_kwargs = self.kwargs` aliases the dict),
while its stored args are untouched; a bare-callable task extends the
stored args list with a copy of itself (`args` aliases `self.args`),
while the stored kwargs are unchanged. -/
theorem worker_defaults_mutation (w : WThread) (f : Fn) (a : List Val)
    (ks : Kwargs) (ocb : Option Cb) :
    (process_task w (Task.direct (TaskVal.tupleV f (some a) (some ks) ocb))).worker.kwargs
      = kupdate w.kwargs ks ∧
    (process_task w (Task.direct (TaskVal.tupleV f (some a) (some ks) ocb))).worker.args
      = w.args ∧
    (process_task w (Task.direct (TaskVal.callableV f))).worker.args = w.args ++ w.args ∧
    (process_task w (Task.direct (TaskVal.callableV f))).worker.kwargs = w.kwargs := by
  refine ⟨?_, ?_, ?_, ?_⟩ <;> simp [process_task, dispatchTv, runCall_worker]

/-- C10: once the pool is dying the worker set never grows —
`_newthread` returns without creating a worker, so `set_thread_count`
with an argument above the current size leaves the pool unchanged and
raises nothing. -/
theorem dying_pool_never_grows (p : PoolState) (n : Int)
    (hd : p.dying = true) (hn : (p.size : Int) < n) :
    _newthread p = p ∧ set_thread_count p (PyArg.int n) = (STCResult.ok, p) := by
  have hnt : _newthread p = p := by
    unfold _newthread
    rw [hd]
    simp
  refine ⟨hnt, ?_⟩
  have h0 : ¬ n < 0 := by omega
  simp only [set_thread_count]
  rw [if_neg h0, if_neg (by omega : ¬ n = 0),
    if_neg (by omega : ¬ n = (p.size : Int)), if_pos hn,
    foldl_newthread_dying _ _ hd]

/-- C10 witness: evaluated on a dying one-worker pool with `n = 4`. -/
theorem dying_pool_never_grows_witness :
    _newthread pDyingC = pDyingC ∧
    set_thread_count pDyingC (PyArg.int 4) = (STCResult.ok, pDyingC) :=
  dying_pool_never_grows pDyingC 4 rfl (by decide)

/-- C1: on a non-dying pool with an empty queue, `set_thread_count(n)`
returns normally for every `n ≥ 0`, and after the workers have
processed the pending sentinels the worker-set size equals `n` with the
queue empty again; in particular, shrinking from a current size `c > n`
enqueues exactly `c - n` sentinels, and processing them removes exactly
`c - n` workers, each consuming one sentinel and removing itself
through `stop_thread` (one entry per sentinel in the removal log). -/
theorem set_thread_count_resizes (p : PoolState) (n : Nat)
    (hd : p.dying = false) (hq : p.queue = []) :
    (set_thread_count p (PyArg.int (n : Int))).1 = STCResult.ok ∧
    (processSentinels (set_thread_count p (PyArg.int (n : Int))).2).size = n ∧
    (processSentinels (set_thread_count p (PyArg.int (n : Int))).2).queue = [] ∧
    (n < p.size →
      (set_thread_count p (PyArg.int (n : Int))).2.queue =
        List.replicate (p.size - n) Task.sentinel ∧
      (processSentinels (set_thread_count p (PyArg.int (n : Int))).2).removed.length =
        p.removed.length + (p.size - n)) := by
  by_cases h0 : n = 0
  · subst h0
    have hred : set_thread_count p (PyArg.int ((0 : Nat) : Int)) =
        (STCResult.ok,
          { p with queue := p.queue ++ List.replicate p.size Task.sentinel }) := by
      simp only [set_thread_count, Nat.cast_zero]
      rw [if_neg (by omega : ¬ (0 : Int) < 0), if_pos rfl, foldl_insert_sentinel]
    rw [hred]
    have hXq : ({ p with queue := p.queue ++ List.replicate p.size Task.sentinel }
        : PoolState).queue = List.replicate p.size Task.sentinel := by
      rw [hq]
      simp
    obtain ⟨d1, d2, d3⟩ := drainFuel_replicate p.size
      ({ p with queue := p.queue ++ List.replicate p.size Task.sentinel }
        : PoolState).queue.length
      { p with queue := p.queue ++ List.replicate p.size Task.sentinel }
      hXq (by simp [hXq]) (by simp [PoolState.size])
    refine ⟨rfl, ?_, ?_, ?_⟩
    · simpa [processSentinels, PoolState.size] using d1
    · simpa [processSentinels] using d2
    · intro _
      refine ⟨by simpa using hXq, ?_⟩
      simpa [processSentinels] using d3
  · by_cases he : n = p.size
    · have hred : set_thread_count p (PyArg.int (n : Int)) = (STCResult.ok, p) := by
        simp only [set_thread_count]
        rw [if_neg (by omega : ¬ (n : Int) < 0),
          if_neg (by exact_mod_cast h0 : ¬ (n : Int) = 0),
          if_pos (by exact_mod_cast he : (n : Int) = (p.size : Int))]
      rw [hred]
      have hps : processSentinels p = p := by
        unfold processSentinels
        exact drainFuel_done _ _ hq
      rw [hps]
      exact ⟨rfl, he.symm, hq, fun h => absurd h (by omega)⟩
    · by_cases hg : p.size < n
      · have hred : set_thread_count p (PyArg.int (n : Int)) =
            (STCResult.ok,
              (List.range ((n : Int) - (p.size : Int)).toNat).foldl
                (fun q _ => _newthread q) p) := by
          simp only [set_thread_count]
          rw [if_neg (by omega : ¬ (n : Int) < 0),
            if_neg (by exact_mod_cast h0 : ¬ (n : Int) = 0),
            if_neg (by exact_mod_cast he : ¬ (n : Int) = (p.size : Int)),
            if_pos (by exact_mod_cast hg : (p.size : Int) < (n : Int))]
        rw [hred]
        obtain ⟨g1, g2, g3, g4⟩ :=
          foldl_newthread_spec ((n : Int) - (p.size : Int)).toNat p hd
        have hk : ((n : Int) - (p.size : Int)).toNat = n - p.size := by omega
        have hps : processSentinels
            ((List.range ((n : Int) - (p.size : Int)).toNat).foldl
              (fun q _ => _newthread q) p) =
            (List.range ((n : Int) - (p.size : Int)).toNat).foldl
              (fun q _ => _newthread q) p := by
          unfold processSentinels
          exact drainFuel_done _ _ (by rw [g2, hq])
        rw [hps]
        refine ⟨rfl, ?_, by rw [g2, hq], fun h => absurd h (by omega)⟩
        show ((List.range ((n : Int) - (p.size : Int)).toNat).foldl
          (fun q _ => _newthread q) p).threads.length = n
        rw [g1, hk]
        have : p.threads.length = p.size := rfl
        omega
      · have hlt : n < p.size := by omega
        have hk : ((p.size : Int) - (n : Int)).toNat = p.size - n := by omega
        have hred : set_thread_count p (PyArg.int (n : Int)) =
            (STCResult.ok,
              { p with queue := p.queue ++ List.replicate (p.size - n) Task.sentinel }) := by
          simp only [set_thread_count]
          rw [if_neg (by omega : ¬ (n : Int) < 0),
            if_neg (by exact_mod_cast h0 : ¬ (n : Int) = 0),
            if_neg (by exact_mod_cast he : ¬ (n : Int) = (p.size : Int)),
            if_neg (by exact_mod_cast hg : ¬ (p.size : Int) < (n : Int)),
            foldl_insert_sentinel, hk]
        rw [hred]
        have hXq : ({ p with queue := p.queue ++ List.replicate (p.size - n) Task.sentinel }
            : PoolState).queue = List.replicate (p.size - n) Task.sentinel := by
          rw [hq]
          simp
        obtain ⟨d1, d2, d3⟩ := drainFuel_replicate (p.size - n)
          ({ p with queue := p.queue ++ List.replicate (p.size - n) Task.sentinel }
            : PoolState).queue.length
          { p with queue := p.queue ++ List.replicate (p.size - n) Task.sentinel }
          hXq (by simp [hXq]) (by simp [PoolState.size, Nat.sub_le])
        refine ⟨rfl, ?_, ?_, ?_⟩
        · have d1' : (processSentinels
              ({ p with queue := p.queue ++ List.replicate (p.size - n) Task.sentinel }
                : PoolState)).size = p.size - (p.size - n) := by
            simpa [processSentinels, PoolState.size] using d1
          rw [d1']
          omega
        · simpa [processSentinels] using d2
        · intro _
          refine ⟨by simpa using hXq, ?_⟩
          simpa [processSentinels] using d3

/-- C1 witness: a live three-worker pool resized to one worker — the
call returns normally, two sentinels are enqueued, and after processing
them the pool has exactly one worker, an empty queue, and two removal
log entries. -/
theorem set_thread_count_resizes_witness :
    (set_thread_count p3C (PyArg.int ((1 : Nat) : Int))).1 = STCResult.ok ∧
    (processSentinels (set_thread_count p3C (PyArg.int ((1 : Nat) : Int))).2).size = 1 ∧
    (processSentinels (set_thread_count p3C (PyArg.int ((1 : Nat) : Int))).2).queue = [] ∧
    (set_thread_count p3C (PyArg.int ((1 : Nat) : Int))).2.queue =
      List.replicate 2 Task.sentinel ∧
    (processSentinels (set_thread_count p3C (PyArg.int ((1 : Nat) : Int))).2).removed.length = 2 := by
  have h := set_thread_count_resizes p3C 1 rfl rfl
  have h4 := h.2.2.2 (by decide)
  exact ⟨h.1, h.2.1, h.2.2.1, h4.1, h4.2⟩

end Threadpool
